import Mathlib

/-!
Verification of the BTHM_ideal property-package configuration
(`src/workshops/HDA_Flowsheet_Optimization/BTHM_ideal.py`).

The source file is a single declarative configuration dictionary for an
ideal benzene-toluene-hydrogen-methane vapor-liquid-equilibrium system.
We embed the dictionary shallowly: Python unit expressions become a small
syntax tree `UnitExpr`, references to framework objects (correlation
modules, phase classes, equations of state, methods) become enumerations,
numeric literals become rationals, and Python dictionaries become
association lists keyed by strings.
-/

set_option autoImplicit false

namespace BTHM

/-- Syntax tree of `pyomo` unit expressions as written in the source file.
Leaves are the named units used there; `mul`, `div` and `pow` mirror the
Python operators `*`, `/` and `**`. -/
inductive UnitExpr where
  | s | m | kg | mol | K | J | Pa | kmol
  | mul (a b : UnitExpr)
  | div (a b : UnitExpr)
  | pow (a : UnitExpr) (n : ℤ)
  deriving DecidableEq, Repr

/-- The component class referenced by the `type` key of each species. -/
inductive CompClass where
  | Component
  deriving DecidableEq, Repr

/-- Pure-property correlation modules referenced by species entries. -/
inductive CorrModule where
  | Perrys | RPP | NIST
  deriving DecidableEq, Repr

/-- Phase-equilibrium formulation referenced by `phase_equilibrium_form`. -/
inductive EquilForm where
  | fugacity
  deriving DecidableEq, Repr

/-- Members of the framework `PhaseType` enumeration used for
`valid_phase_types` restrictions. -/
inductive PhaseT where
  | liquidPhase | vaporPhase
  deriving DecidableEq, Repr

/-- Phase classes referenced by the `type` key of each phase. -/
inductive PhaseClass where
  | LiquidPhase | VaporPhase
  deriving DecidableEq, Repr

/-- Equation-of-state selections. -/
inductive EOS where
  | Ideal
  deriving DecidableEq, Repr

/-- State-definition selections. -/
inductive StateDef where
  | FpcTP
  deriving DecidableEq, Repr

/-- Phase-equilibrium state formulations. -/
inductive PhaseEquilState where
  | smooth_VLE
  deriving DecidableEq, Repr

/-- Bubble/dew-point methods. -/
inductive BubbleDew where
  | IdealBubbleDew
  deriving DecidableEq, Repr

/-- A `(value, unit)` tuple as written in `parameter_data`; `u = none`
embeds a Python `None` unit. -/
structure PEntry where
  val : ℚ
  u : Option UnitExpr
  deriving DecidableEq, Repr

/-- A value of the `parameter_data` dictionary: either a single
`(value, unit)` tuple or a dictionary of coefficient entries. -/
inductive ParamVal where
  | entry (e : PEntry)
  | coeffs (c : List (String × PEntry))
  deriving DecidableEq, Repr

/-- A species record of the `components` dictionary.  Keys that are absent
for a given species in the source are embedded as `none` / `[]` defaults. -/
structure ComponentRec where
  type : CompClass
  dens_mol_liq_comp : Option CorrModule := none
  enth_mol_liq_comp : Option CorrModule := none
  enth_mol_ig_comp : Option CorrModule := none
  pressure_sat_comp : Option CorrModule := none
  valid_phase_types : Option PhaseT := none
  phase_equilibrium_form : List ((String × String) × EquilForm) := []
  parameter_data : List (String × ParamVal)
  deriving DecidableEq, Repr

/-- A phase record of the `phases` dictionary. -/
structure PhaseRec where
  type : PhaseClass
  equation_of_state : EOS
  deriving DecidableEq, Repr

/-- A state-bounds entry: `(lower, nominal, upper, unit)`. -/
structure StateBound where
  lower : ℚ
  nominal : ℚ
  upper : ℚ
  u : UnitExpr
  deriving DecidableEq, Repr

/-- A value of the top-level configuration dictionary. -/
inductive ConfigVal where
  | components (m : List (String × ComponentRec))
  | phases (m : List (String × PhaseRec))
  | base_units (m : List (String × UnitExpr))
  | state_definition (d : StateDef)
  | state_bounds (m : List (String × StateBound))
  | refEntry (e : PEntry)
  | phases_in_equilibrium (l : List (String × String))
  | phase_equilibrium_state (m : List ((String × String) × PhaseEquilState))
  | bubble_dew_method (b : BubbleDew)
  deriving DecidableEq, Repr

/-- The `benzene` entry of the `components` dictionary. -/
def benzene : ComponentRec :=
  { type := .Component
    dens_mol_liq_comp := some .Perrys
    enth_mol_liq_comp := some .Perrys
    enth_mol_ig_comp := some .RPP
    pressure_sat_comp := some .NIST
    phase_equilibrium_form := [(("Vap", "Liq"), .fugacity)]
    parameter_data := [
      ("mw", .entry ⟨78.1136e-3, some (.div .kg .mol)⟩),
      ("pressure_crit", .entry ⟨48.9e5, some .Pa⟩),
      ("temperature_crit", .entry ⟨562.2, some .K⟩),
      ("dens_mol_liq_comp_coeff", .coeffs [
        ("1", ⟨1.0162, some (.mul .kmol (.pow .m (-3)))⟩),
        ("2", ⟨0.2655, none⟩),
        ("3", ⟨562.16, some .K⟩),
        ("4", ⟨0.28212, none⟩)]),
      ("cp_mol_ig_comp_coeff", .coeffs [
        ("A", ⟨-3.392e1, some (.div (.div .J .mol) .K)⟩),
        ("B", ⟨4.739e-1, some (.div (.div .J .mol) (.pow .K 2))⟩),
        ("C", ⟨-3.017e-4, some (.div (.div .J .mol) (.pow .K 3))⟩),
        ("D", ⟨7.130e-8, some (.div (.div .J .mol) (.pow .K 4))⟩)]),
      ("cp_mol_liq_comp_coeff", .coeffs [
        ("1", ⟨1.29e5, some (.mul (.mul .J (.pow .kmol (-1))) (.pow .K (-1)))⟩),
        ("2", ⟨-1.7e2, some (.mul (.mul .J (.pow .kmol (-1))) (.pow .K (-2)))⟩),
        ("3", ⟨6.48e-1, some (.mul (.mul .J (.pow .kmol (-1))) (.pow .K (-3)))⟩),
        ("4", ⟨0, some (.mul (.mul .J (.pow .kmol (-1))) (.pow .K (-4)))⟩),
        ("5", ⟨0, some (.mul (.mul .J (.pow .kmol (-1))) (.pow .K (-5)))⟩)]),
      ("enth_mol_form_liq_comp_ref", .entry ⟨-49.0e3, some (.div .J .mol)⟩),
      ("enth_mol_form_vap_comp_ref", .entry ⟨-82.9e3, some (.div .J .mol)⟩),
      ("pressure_sat_comp_coeff", .coeffs [
        ("A", ⟨4.60362, none⟩),
        ("B", ⟨1701.073, some .K⟩),
        ("C", ⟨20.806, some .K⟩)])] }

/-- The `toluene` entry of the `components` dictionary. -/
def toluene : ComponentRec :=
  { type := .Component
    dens_mol_liq_comp := some .Perrys
    enth_mol_liq_comp := some .Perrys
    enth_mol_ig_comp := some .RPP
    pressure_sat_comp := some .NIST
    phase_equilibrium_form := [(("Vap", "Liq"), .fugacity)]
    parameter_data := [
      ("mw", .entry ⟨92.1405e-3, some (.div .kg .mol)⟩),
      ("pressure_crit", .entry ⟨41e5, some .Pa⟩),
      ("temperature_crit", .entry ⟨591.8, some .K⟩),
      ("dens_mol_liq_comp_coeff", .coeffs [
        ("1", ⟨0.8488, some (.mul .kmol (.pow .m (-3)))⟩),
        ("2", ⟨0.26655, none⟩),
        ("3", ⟨591.8, some .K⟩),
        ("4", ⟨0.2878, none⟩)]),
      ("cp_mol_ig_comp_coeff", .coeffs [
        ("A", ⟨-2.435e1, some (.div (.div .J .mol) .K)⟩),
        ("B", ⟨5.125e-1, some (.div (.div .J .mol) (.pow .K 2))⟩),
        ("C", ⟨-2.765e-4, some (.div (.div .J .mol) (.pow .K 3))⟩),
        ("D", ⟨4.911e-8, some (.div (.div .J .mol) (.pow .K 4))⟩)]),
      ("cp_mol_liq_comp_coeff", .coeffs [
        ("1", ⟨1.40e5, some (.mul (.mul .J (.pow .kmol (-1))) (.pow .K (-1)))⟩),
        ("2", ⟨-1.522, some (.mul (.mul .J (.pow .kmol (-1))) (.pow .K (-2)))⟩),
        ("3", ⟨6.95e-1, some (.mul (.mul .J (.pow .kmol (-1))) (.pow .K (-3)))⟩),
        ("4", ⟨0, some (.mul (.mul .J (.pow .kmol (-1))) (.pow .K (-4)))⟩),
        ("5", ⟨0, some (.mul (.mul .J (.pow .kmol (-1))) (.pow .K (-5)))⟩)]),
      ("enth_mol_form_liq_comp_ref", .entry ⟨-12.0e3, some (.div .J .mol)⟩),
      ("enth_mol_form_vap_comp_ref", .entry ⟨-50.1e3, some (.div .J .mol)⟩),
      ("pressure_sat_comp_coeff", .coeffs [
        ("A", ⟨4.54436, none⟩),
        ("B", ⟨1738.123, some .K⟩),
        ("C", ⟨0.394, some .K⟩)])] }

/-- The `hydrogen` entry of the `components` dictionary. -/
def hydrogen : ComponentRec :=
  { type := .Component
    valid_phase_types := some .vaporPhase
    enth_mol_ig_comp := some .RPP
    parameter_data := [
      ("mw", .entry ⟨2.016e-3, some (.div .kg .mol)⟩),
      ("pressure_crit", .entry ⟨12.9e5, some .Pa⟩),
      ("temperature_crit", .entry ⟨33.0, some .K⟩),
      ("cp_mol_ig_comp_coeff", .coeffs [
        ("A", ⟨2.714e1, some (.div (.div .J .mol) .K)⟩),
        ("B", ⟨9.274e-3, some (.div (.div .J .mol) (.pow .K 2))⟩),
        ("C", ⟨-1.381e-5, some (.div (.div .J .mol) (.pow .K 3))⟩),
        ("D", ⟨7.645e-9, some (.div (.div .J .mol) (.pow .K 4))⟩)]),
      ("enth_mol_form_vap_comp_ref", .entry ⟨0, some (.div .J .mol)⟩)] }

/-- The `methane` entry of the `components` dictionary. -/
def methane : ComponentRec :=
  { type := .Component
    valid_phase_types := some .vaporPhase
    enth_mol_ig_comp := some .RPP
    parameter_data := [
      ("mw", .entry ⟨16.043e-3, some (.div .kg .mol)⟩),
      ("pressure_crit", .entry ⟨46e5, some .Pa⟩),
      ("temperature_crit", .entry ⟨190.4, some .K⟩),
      ("cp_mol_ig_comp_coeff", .coeffs [
        ("A", ⟨1.925e1, some (.div (.div .J .mol) .K)⟩),
        ("B", ⟨5.213e-2, some (.div (.div .J .mol) (.pow .K 2))⟩),
        ("C", ⟨1.197e-5, some (.div (.div .J .mol) (.pow .K 3))⟩),
        ("D", ⟨-1.132e-8, some (.div (.div .J .mol) (.pow .K 4))⟩)]),
      ("enth_mol_form_vap_comp_ref", .entry ⟨-75e3, some (.div .J .mol)⟩)] }

/-- The `configuration` dictionary of the source file, embedded as an
association list in source order. -/
def configuration : List (String × ConfigVal) := [
  ("components", .components [
    ("benzene", benzene),
    ("toluene", toluene),
    ("hydrogen", hydrogen),
    ("methane", methane)]),
  ("phases", .phases [
    ("Liq", ⟨.LiquidPhase, .Ideal⟩),
    ("Vap", ⟨.VaporPhase, .Ideal⟩)]),
  ("base_units", .base_units [
    ("time", .s),
    ("length", .m),
    ("mass", .kg),
    ("amount", .mol),
    ("temperature", .K)]),
  ("state_definition", .state_definition .FpcTP),
  ("state_bounds", .state_bounds [
    ("flow_mol_comp", ⟨0, 100, 1000, .div .mol .s⟩),
    ("temperature", ⟨273.15, 300, 1000, .K⟩),
    ("pressure", ⟨5e4, 1e5, 1e6, .Pa⟩)]),
  ("pressure_ref", .refEntry ⟨101325, some .Pa⟩),
  ("temperature_ref", .refEntry ⟨300, some .K⟩),
  ("phases_in_equilibrium", .phases_in_equilibrium [("Vap", "Liq")]),
  ("phase_equilibrium_state", .phase_equilibrium_state
    [(("Vap", "Liq"), .smooth_VLE)]),
  ("bubble_dew_method", .bubble_dew_method .IdealBubbleDew)]

/-- The `components` sub-dictionary of a configuration. -/
def componentsOf (c : List (String × ConfigVal)) :
    Option (List (String × ComponentRec)) :=
  match c.lookup "components" with
  | some (.components ms) => some ms
  | _ => none

/-- The `phases` sub-dictionary of a configuration. -/
def phasesOf (c : List (String × ConfigVal)) :
    Option (List (String × PhaseRec)) :=
  match c.lookup "phases" with
  | some (.phases ms) => some ms
  | _ => none

/-- Look up a species record by name. -/
def componentNamed (c : List (String × ConfigVal)) (n : String) :
    Option ComponentRec :=
  (componentsOf c).bind (fun ms => ms.lookup n)

/-- Look up an entry of a species' `parameter_data` dictionary. -/
def paramOf (cr : ComponentRec) (k : String) : Option ParamVal :=
  cr.parameter_data.lookup k

/-- The key list of a coefficient dictionary inside `parameter_data`. -/
def coeffKeys (cr : ComponentRec) (q : String) : Option (List String) :=
  match paramOf cr q with
  | some (.coeffs cs) => some (cs.map Prod.fst)
  | _ => none

/-- Look up one coefficient entry of a coefficient dictionary. -/
def coeffOf (cr : ComponentRec) (q k : String) : Option PEntry :=
  match paramOf cr q with
  | some (.coeffs cs) => cs.lookup k
  | _ => none

/-- The `state_bounds` sub-dictionary of a configuration. -/
def stateBoundsOf (c : List (String × ConfigVal)) :
    Option (List (String × StateBound)) :=
  match c.lookup "state_bounds" with
  | some (.state_bounds ms) => some ms
  | _ => none

/-- The `phases_in_equilibrium` list of a configuration. -/
def phasesInEquilOf (c : List (String × ConfigVal)) :
    Option (List (String × String)) :=
  match c.lookup "phases_in_equilibrium" with
  | some (.phases_in_equilibrium l) => some l
  | _ => none

/-- The `phase_equilibrium_state` dictionary of a configuration. -/
def phaseEquilStateOf (c : List (String × ConfigVal)) :
    Option (List ((String × String) × PhaseEquilState)) :=
  match c.lookup "phase_equilibrium_state" with
  | some (.phase_equilibrium_state m) => some m
  | _ => none

/-- `f` holds of every species record of the `components` dictionary
(false when the `components` key is absent). -/
def allComponentsB (c : List (String × ConfigVal))
    (f : ComponentRec → Bool) : Bool :=
  match componentsOf c with
  | some cs => cs.all (fun p => f p.2)
  | none => false

/-- Modelled from the spec: the coefficient-dictionary key and the exact
coefficient key set each correlation form requires.  The correlation
implementations themselves (the `Perrys`, `RPP` and `NIST` pure-property
modules) live in the external IDAES framework, not in this repository; the
spec describes their required key sets (a 4-term Perrys liquid-density
correlation, a 5-term Perrys liquid heat capacity, a 4-term RPP ideal-gas
heat-capacity polynomial with keys A-D, a 3-term NIST saturation-pressure
correlation). -/
def requiredCoeffs (slot : String) (md : CorrModule) :
    Option (String × List String) :=
  match slot, md with
  | "dens_mol_liq_comp", .Perrys =>
      some ("dens_mol_liq_comp_coeff", ["1", "2", "3", "4"])
  | "enth_mol_liq_comp", .Perrys =>
      some ("cp_mol_liq_comp_coeff", ["1", "2", "3", "4", "5"])
  | "enth_mol_ig_comp", .RPP =>
      some ("cp_mol_ig_comp_coeff", ["A", "B", "C", "D"])
  | "pressure_sat_comp", .NIST =>
      some ("pressure_sat_comp_coeff", ["A", "B", "C"])
  | _, _ => none

/-- Two key lists contain the same set of keys. -/
def sameKeySet (a b : List String) : Bool :=
  a.all (b.contains ·) && b.all (a.contains ·)

/-- A declared correlation slot of a species supplies exactly the
coefficient keys its form requires (vacuously true when the slot is not
declared). -/
def corrSlotOk (cr : ComponentRec) (slot : String)
    (mo : Option CorrModule) : Bool :=
  match mo with
  | none => true
  | some md =>
    match requiredCoeffs slot md with
    | none => false
    | some (q, req) =>
      match coeffKeys cr q with
      | none => false
      | some ks => sameKeySet ks req

/-- Every correlation a species declares has exactly the required
coefficient keys. -/
def componentCoeffsOk (cr : ComponentRec) : Bool :=
  corrSlotOk cr "dens_mol_liq_comp" cr.dens_mol_liq_comp &&
  corrSlotOk cr "enth_mol_liq_comp" cr.enth_mol_liq_comp &&
  corrSlotOk cr "enth_mol_ig_comp" cr.enth_mol_ig_comp &&
  corrSlotOk cr "pressure_sat_comp" cr.pressure_sat_comp

/-- Every phase pair of `phases_in_equilibrium` and every key pair of
`phase_equilibrium_state` names only phases of the `phases` registry. -/
def phasePairsDeclaredB (c : List (String × ConfigVal)) : Bool :=
  match phasesOf c, phasesInEquilOf c, phaseEquilStateOf c with
  | some ps, some pe, some pes =>
    let ns := ps.map Prod.fst
    pe.all (fun pr => ns.contains pr.1 && ns.contains pr.2) &&
    pes.all (fun q => ns.contains q.1.1 && ns.contains q.1.2)
  | _, _, _ => false

/-- A phase class realizes a `PhaseType` enumeration member. -/
def phaseMatchesT (pc : PhaseClass) (pt : PhaseT) : Bool :=
  match pt, pc with
  | .vaporPhase, .VaporPhase => true
  | .liquidPhase, .LiquidPhase => true
  | _, _ => false

/-- A species' `valid_phase_types` restriction is realized by some phase of
the registry (vacuously true when the species is unrestricted). -/
def validPhasesOk (cr : ComponentRec)
    (ps : List (String × PhaseRec)) : Bool :=
  match cr.valid_phase_types with
  | none => true
  | some pt => ps.any (fun q => phaseMatchesT q.2.type pt)

/-- Every restricted species' phase restriction is realized by a declared
phase. -/
def validPhaseTypesOkB (c : List (String × ConfigVal)) : Bool :=
  match componentsOf c, phasesOf c with
  | some cs, some ps => cs.all (fun p => validPhasesOk p.2 ps)
  | _, _ => false

/-- A species references correlations for all four of: liquid density,
liquid enthalpy, ideal-gas enthalpy and saturation pressure. -/
def hasAllFourCorr (cr : ComponentRec) : Bool :=
  cr.dens_mol_liq_comp.isSome && cr.enth_mol_liq_comp.isSome &&
  cr.enth_mol_ig_comp.isSome && cr.pressure_sat_comp.isSome

/-- The bounds of a state variable are ordered: lower ≤ nominal ≤ upper. -/
def boundOk (b : StateBound) : Bool :=
  decide (b.lower ≤ b.nominal) && decide (b.nominal ≤ b.upper)

/-- The lower bound of a state variable is strictly positive. -/
def lowerPos (b : StateBound) : Bool :=
  decide (0 < b.lower)

/-- All state bounds are ordered, and the temperature and pressure lower
bounds are strictly positive. -/
def stateBoundsOkB (c : List (String × ConfigVal)) : Bool :=
  match stateBoundsOf c with
  | some ms =>
    ms.all (fun p => boundOk p.2) &&
    (match ms.lookup "temperature" with
     | some b => lowerPos b
     | none => false) &&
    (match ms.lookup "pressure" with
     | some b => lowerPos b
     | none => false)
  | none => false

/-!
Modelled from the spec: the validated constant table loader.  The source
file is pure data; the spec (sections 4, 7 and 8) describes the single
component an implementer would need — a loader `load(table) → structured
record` that validates coefficient key sets, correlation references, phase
references and unit dimensions, failing with a distinct named error for
each failure mode — together with a round-trip guarantee between the
loaded structure and the original table format.  No such loader exists in
this repository (the consuming IDAES framework is external), so the types
and functions below are modelled from the spec's words.  The "original
table format" is the configuration dictionary with framework objects
referred to by name, exactly as they are written in the source. -/

/-- Modelled from the spec: a species entry of the raw table; framework
objects are referred to by their source spelling. -/
structure RawComponent where
  type : String
  dens_mol_liq_comp : Option String := none
  enth_mol_liq_comp : Option String := none
  enth_mol_ig_comp : Option String := none
  pressure_sat_comp : Option String := none
  valid_phase_types : Option String := none
  phase_equilibrium_form : List ((String × String) × String) := []
  parameter_data : List (String × ParamVal)
  deriving DecidableEq, Repr

/-- Modelled from the spec: a phase entry of the raw table. -/
structure RawPhase where
  type : String
  equation_of_state : String
  deriving DecidableEq, Repr

/-- Modelled from the spec: a top-level value of the raw table. -/
inductive RawConfigVal where
  | components (m : List (String × RawComponent))
  | phases (m : List (String × RawPhase))
  | base_units (m : List (String × UnitExpr))
  | state_definition (d : String)
  | state_bounds (m : List (String × StateBound))
  | refEntry (e : PEntry)
  | phases_in_equilibrium (l : List (String × String))
  | phase_equilibrium_state (m : List ((String × String) × String))
  | bubble_dew_method (b : String)
  deriving DecidableEq, Repr

/-- Modelled from the spec: the raw table format — the configuration
dictionary with framework objects referred to by name. -/
abbrev RawConfig := List (String × RawConfigVal)

/-- The source spelling of a component class. -/
def CompClass.sname : CompClass → String
  | .Component => "Component"

/-- The source spelling of a correlation module. -/
def CorrModule.sname : CorrModule → String
  | .Perrys => "Perrys"
  | .RPP => "RPP"
  | .NIST => "NIST"

/-- The source spelling of a phase-type enumeration member. -/
def PhaseT.sname : PhaseT → String
  | .liquidPhase => "PT.liquidPhase"
  | .vaporPhase => "PT.vaporPhase"

/-- The source spelling of a phase class. -/
def PhaseClass.sname : PhaseClass → String
  | .LiquidPhase => "LiquidPhase"
  | .VaporPhase => "VaporPhase"

/-- The source spelling of an equation of state. -/
def EOS.sname : EOS → String
  | .Ideal => "Ideal"

/-- The source spelling of a state definition. -/
def StateDef.sname : StateDef → String
  | .FpcTP => "FpcTP"

/-- The source spelling of a phase-equilibrium formulation. -/
def EquilForm.sname : EquilForm → String
  | .fugacity => "fugacity"

/-- The source spelling of a phase-equilibrium state formulation. -/
def PhaseEquilState.sname : PhaseEquilState → String
  | .smooth_VLE => "smooth_VLE"

/-- The source spelling of a bubble/dew-point method. -/
def BubbleDew.sname : BubbleDew → String
  | .IdealBubbleDew => "IdealBubbleDew"

/-- Serialize a species record back to the raw table format. -/
def serializeComponent (cr : ComponentRec) : RawComponent :=
  { type := cr.type.sname
    dens_mol_liq_comp := cr.dens_mol_liq_comp.map CorrModule.sname
    enth_mol_liq_comp := cr.enth_mol_liq_comp.map CorrModule.sname
    enth_mol_ig_comp := cr.enth_mol_ig_comp.map CorrModule.sname
    pressure_sat_comp := cr.pressure_sat_comp.map CorrModule.sname
    valid_phase_types := cr.valid_phase_types.map PhaseT.sname
    phase_equilibrium_form :=
      cr.phase_equilibrium_form.map (fun p => (p.1, p.2.sname))
    parameter_data := cr.parameter_data }

/-- Serialize a top-level configuration value back to the raw table
format. -/
def serializeVal : ConfigVal → RawConfigVal
  | .components m =>
      .components (m.map (fun p => (p.1, serializeComponent p.2)))
  | .phases m =>
      .phases (m.map (fun p =>
        (p.1, ⟨p.2.type.sname, p.2.equation_of_state.sname⟩)))
  | .base_units m => .base_units m
  | .state_definition d => .state_definition d.sname
  | .state_bounds m => .state_bounds m
  | .refEntry e => .refEntry e
  | .phases_in_equilibrium l => .phases_in_equilibrium l
  | .phase_equilibrium_state m =>
      .phase_equilibrium_state (m.map (fun p => (p.1, p.2.sname)))
  | .bubble_dew_method b => .bubble_dew_method b.sname

/-- Modelled from the spec: serialize the loaded structure back to the
original table format. -/
def serialize (c : List (String × ConfigVal)) : RawConfig :=
  c.map (fun p => (p.1, serializeVal p.2))

/-- Modelled from the spec: the four distinct, named load-time errors —
missing (or malformed) coefficient, unknown correlation reference
(covering any unresolvable framework-object reference), unknown phase
reference, and unit-dimension mismatch. -/
inductive LoadError where
  | missingCoefficient (species quantity key : String)
  | unknownCorrelation (context ref : String)
  | unknownPhase (context phase : String)
  | unitDimensionMismatch (context quantity : String)
  deriving DecidableEq, Repr

/-- Map a fallible function over a list, stopping at the first error. -/
def mapExcept {α β ε : Type} (f : α → Except ε β) :
    List α → Except ε (List β)
  | [] => .ok []
  | a :: t => do
    let b ← f a
    let bs ← mapExcept f t
    .ok (b :: bs)

/-- Run a fallible check on every element of a list, stopping at the
first error. -/
def allExcept {α ε : Type} (f : α → Except ε Unit) :
    List α → Except ε Unit
  | [] => .ok ()
  | a :: t => do
    f a
    allExcept f t

/-- Resolve a correlation-module reference. -/
def parseCorr (ctx : String) : String → Except LoadError CorrModule
  | "Perrys" => .ok .Perrys
  | "RPP" => .ok .RPP
  | "NIST" => .ok .NIST
  | r => .error (.unknownCorrelation ctx r)

/-- Resolve an optional correlation-module reference. -/
def parseCorrOpt (ctx : String) :
    Option String → Except LoadError (Option CorrModule)
  | none => .ok none
  | some r => (parseCorr ctx r).map some

/-- Resolve a component-class reference. -/
def parseCompClass (ctx : String) : String → Except LoadError CompClass
  | "Component" => .ok .Component
  | r => .error (.unknownCorrelation ctx r)

/-- Resolve a phase-type enumeration reference. -/
def parsePhaseT (ctx : String) : String → Except LoadError PhaseT
  | "PT.liquidPhase" => .ok .liquidPhase
  | "PT.vaporPhase" => .ok .vaporPhase
  | r => .error (.unknownPhase ctx r)

/-- Resolve a phase-class reference. -/
def parsePhaseClass (ctx : String) : String → Except LoadError PhaseClass
  | "LiquidPhase" => .ok .LiquidPhase
  | "VaporPhase" => .ok .VaporPhase
  | r => .error (.unknownCorrelation ctx r)

/-- Resolve an equation-of-state reference. -/
def parseEOS (ctx : String) : String → Except LoadError EOS
  | "Ideal" => .ok .Ideal
  | r => .error (.unknownCorrelation ctx r)

/-- Resolve a state-definition reference. -/
def parseStateDef (ctx : String) : String → Except LoadError StateDef
  | "FpcTP" => .ok .FpcTP
  | r => .error (.unknownCorrelation ctx r)

/-- Resolve a phase-equilibrium formulation reference. -/
def parseEquilForm (ctx : String) : String → Except LoadError EquilForm
  | "fugacity" => .ok .fugacity
  | r => .error (.unknownCorrelation ctx r)

/-- Resolve a phase-equilibrium state formulation reference. -/
def parsePES (ctx : String) : String → Except LoadError PhaseEquilState
  | "smooth_VLE" => .ok .smooth_VLE
  | r => .error (.unknownCorrelation ctx r)

/-- Resolve a bubble/dew-point method reference. -/
def parseBubbleDew (ctx : String) : String → Except LoadError BubbleDew
  | "IdealBubbleDew" => .ok .IdealBubbleDew
  | r => .error (.unknownCorrelation ctx r)

/-- Parse a raw species entry, resolving every framework-object
reference. -/
def parseComponent (name : String) (rc : RawComponent) :
    Except LoadError ComponentRec := do
  let ty ← parseCompClass name rc.type
  let dl ← parseCorrOpt name rc.dens_mol_liq_comp
  let el ← parseCorrOpt name rc.enth_mol_liq_comp
  let eg ← parseCorrOpt name rc.enth_mol_ig_comp
  let ps ← parseCorrOpt name rc.pressure_sat_comp
  let vp ← match rc.valid_phase_types with
    | none => .ok none
    | some s => (parsePhaseT name s).map some
  let pef ← mapExcept
    (fun p => (parseEquilForm name p.2).map (fun f => (p.1, f)))
    rc.phase_equilibrium_form
  .ok { type := ty
        dens_mol_liq_comp := dl
        enth_mol_liq_comp := el
        enth_mol_ig_comp := eg
        pressure_sat_comp := ps
        valid_phase_types := vp
        phase_equilibrium_form := pef
        parameter_data := rc.parameter_data }

/-- Parse a raw top-level value. -/
def parseVal (k : String) : RawConfigVal → Except LoadError ConfigVal
  | .components m =>
    (mapExcept (fun p => (parseComponent p.1 p.2).map (fun c => (p.1, c)))
      m).map .components
  | .phases m =>
    (mapExcept (fun p => do
        let pc ← parsePhaseClass p.1 p.2.type
        let es ← parseEOS p.1 p.2.equation_of_state
        .ok (p.1, (⟨pc, es⟩ : PhaseRec))) m).map .phases
  | .base_units m => .ok (.base_units m)
  | .state_definition d => (parseStateDef k d).map .state_definition
  | .state_bounds m => .ok (.state_bounds m)
  | .refEntry e => .ok (.refEntry e)
  | .phases_in_equilibrium l => .ok (.phases_in_equilibrium l)
  | .phase_equilibrium_state m =>
    (mapExcept (fun p => (parsePES k p.2).map (fun s => (p.1, s))) m).map
      .phase_equilibrium_state
  | .bubble_dew_method b => (parseBubbleDew k b).map .bubble_dew_method

/-- Parse a raw table into the structured record, resolving every
reference. -/
def parseConfig (r : RawConfig) :
    Except LoadError (List (String × ConfigVal)) :=
  mapExcept (fun p => (parseVal p.1 p.2).map (fun v => (p.1, v))) r

/-- A dimension vector: integer exponents of the base dimensions time,
length, mass, amount and temperature. -/
structure Dims where
  s : ℤ
  m : ℤ
  kg : ℤ
  mol : ℤ
  K : ℤ
  deriving DecidableEq, Repr

/-- Componentwise sum of dimension vectors. -/
def Dims.add (a b : Dims) : Dims :=
  ⟨a.s + b.s, a.m + b.m, a.kg + b.kg, a.mol + b.mol, a.K + b.K⟩

/-- Componentwise difference of dimension vectors. -/
def Dims.sub (a b : Dims) : Dims :=
  ⟨a.s - b.s, a.m - b.m, a.kg - b.kg, a.mol - b.mol, a.K - b.K⟩

/-- Scale a dimension vector by an integer exponent. -/
def Dims.smul (n : ℤ) (a : Dims) : Dims :=
  ⟨n * a.s, n * a.m, n * a.kg, n * a.mol, n * a.K⟩

/-- The dimensionless vector. -/
def dimNone : Dims := ⟨0, 0, 0, 0, 0⟩

/-- The dimension vector of a unit expression.  `kmol` has the dimension
of `mol`; `J` and `Pa` expand to their base-dimension vectors. -/
def UnitExpr.dims : UnitExpr → Dims
  | .s => ⟨1, 0, 0, 0, 0⟩
  | .m => ⟨0, 1, 0, 0, 0⟩
  | .kg => ⟨0, 0, 1, 0, 0⟩
  | .mol => ⟨0, 0, 0, 1, 0⟩
  | .kmol => ⟨0, 0, 0, 1, 0⟩
  | .K => ⟨0, 0, 0, 0, 1⟩
  | .J => ⟨-2, 2, 1, 0, 0⟩
  | .Pa => ⟨-2, -1, 1, 0, 0⟩
  | .mul a b => a.dims.add b.dims
  | .div a b => a.dims.sub b.dims
  | .pow a n => Dims.smul n a.dims

/-- The dimension of an optional unit; a `None` unit is dimensionless. -/
def entryDims : Option UnitExpr → Dims
  | none => dimNone
  | some u => u.dims

/-- The dimension of molar energy, J/mol. -/
def dimJmol : Dims := ⟨-2, 2, 1, -1, 0⟩

/-- The dimension of molar energy per K^n, J/mol/K^n. -/
def dimJmolKn (n : ℤ) : Dims := ⟨-2, 2, 1, -1, -n⟩

/-- Modelled from the spec: the expected dimension of each scalar
physical quantity of `parameter_data`.  Quantities outside this table are
not dimension-checked. -/
def expectedScalarDims : String → Option Dims
  | "mw" => some ⟨0, 0, 1, -1, 0⟩
  | "pressure_crit" => some (UnitExpr.Pa.dims)
  | "temperature_crit" => some ⟨0, 0, 0, 0, 1⟩
  | "enth_mol_form_liq_comp_ref" => some dimJmol
  | "enth_mol_form_vap_comp_ref" => some dimJmol
  | _ => none

/-- Modelled from the spec: the expected dimension of each coefficient of
the known coefficient dictionaries. -/
def expectedCoeffDims (q k : String) : Option Dims :=
  match q with
  | "cp_mol_ig_comp_coeff" =>
    match k with
    | "A" => some (dimJmolKn 1)
    | "B" => some (dimJmolKn 2)
    | "C" => some (dimJmolKn 3)
    | "D" => some (dimJmolKn 4)
    | _ => none
  | "cp_mol_liq_comp_coeff" =>
    match k with
    | "1" => some (dimJmolKn 1)
    | "2" => some (dimJmolKn 2)
    | "3" => some (dimJmolKn 3)
    | "4" => some (dimJmolKn 4)
    | "5" => some (dimJmolKn 5)
    | _ => none
  | "dens_mol_liq_comp_coeff" =>
    match k with
    | "1" => some ⟨0, -3, 0, 1, 0⟩
    | "2" => some dimNone
    | "3" => some ⟨0, 0, 0, 0, 1⟩
    | "4" => some dimNone
    | _ => none
  | "pressure_sat_comp_coeff" =>
    match k with
    | "A" => some dimNone
    | "B" => some ⟨0, 0, 0, 0, 1⟩
    | "C" => some ⟨0, 0, 0, 0, 1⟩
    | _ => none
  | _ => none

/-- Modelled from the spec: the expected dimension of each state-bounds
entry. -/
def expectedBoundDims : String → Option Dims
  | "flow_mol_comp" => some ⟨-1, 0, 0, 1, 0⟩
  | "temperature" => some ⟨0, 0, 0, 0, 1⟩
  | "pressure" => some (UnitExpr.Pa.dims)
  | _ => none

/-- Modelled from the spec: the expected dimension of each base unit. -/
def expectedBaseDims : String → Option Dims
  | "time" => some ⟨1, 0, 0, 0, 0⟩
  | "length" => some ⟨0, 1, 0, 0, 0⟩
  | "mass" => some ⟨0, 0, 1, 0, 0⟩
  | "amount" => some ⟨0, 0, 0, 1, 0⟩
  | "temperature" => some ⟨0, 0, 0, 0, 1⟩
  | _ => none

/-- Check one declared correlation slot of a species: the corresponding
coefficient dictionary must supply exactly the required key set.  A
missing dictionary, a missing key or a surplus (malformed) key raises
`missingCoefficient` naming the offending key; an unsupported
slot/module combination raises `unknownCorrelation`. -/
def checkCoeffsSlot (sp : String) (cr : ComponentRec) (slot : String)
    (mo : Option CorrModule) : Except LoadError Unit :=
  match mo with
  | none => .ok ()
  | some md =>
    match requiredCoeffs slot md with
    | none => .error (.unknownCorrelation sp slot)
    | some (q, req) =>
      match coeffKeys cr q with
      | none => .error (.missingCoefficient sp q (req.headD ""))
      | some ks =>
        match req.find? (fun k => !(ks.contains k)) with
        | some k => .error (.missingCoefficient sp q k)
        | none =>
          match ks.find? (fun k => !(req.contains k)) with
          | some k => .error (.missingCoefficient sp q k)
          | none => .ok ()

/-- Check the unit dimensions of every recognized entry of a species'
`parameter_data`. -/
def checkParamDims (sp : String) (pd : List (String × ParamVal)) :
    Except LoadError Unit :=
  allExcept (fun p =>
    match p.2 with
    | .entry e =>
      match expectedScalarDims p.1 with
      | some d =>
        if entryDims e.u = d then .ok ()
        else .error (.unitDimensionMismatch sp p.1)
      | none => .ok ()
    | .coeffs cs =>
      allExcept (fun c =>
        match expectedCoeffDims p.1 c.1 with
        | some d =>
          if entryDims c.2.u = d then .ok ()
          else .error (.unitDimensionMismatch sp (p.1 ++ "." ++ c.1))
        | none => .ok ()) cs) pd

/-- Check that a phase name is declared in the phase registry. -/
def checkPhaseName (ctx : String) (ns : List String) (ph : String) :
    Except LoadError Unit :=
  if ns.contains ph then .ok () else .error (.unknownPhase ctx ph)

/-- Validate one species against the phase registry: coefficient key
sets, unit dimensions, phase-equilibrium-form phase references, and the
`valid_phase_types` restriction. -/
def validateComponent (ps : List (String × PhaseRec))
    (p : String × ComponentRec) : Except LoadError Unit := do
  checkCoeffsSlot p.1 p.2 "dens_mol_liq_comp" p.2.dens_mol_liq_comp
  checkCoeffsSlot p.1 p.2 "enth_mol_liq_comp" p.2.enth_mol_liq_comp
  checkCoeffsSlot p.1 p.2 "enth_mol_ig_comp" p.2.enth_mol_ig_comp
  checkCoeffsSlot p.1 p.2 "pressure_sat_comp" p.2.pressure_sat_comp
  checkParamDims p.1 p.2.parameter_data
  allExcept (fun q => do
      checkPhaseName p.1 (ps.map Prod.fst) q.1.1
      checkPhaseName p.1 (ps.map Prod.fst) q.1.2)
    p.2.phase_equilibrium_form
  match p.2.valid_phase_types with
  | none => .ok ()
  | some pt =>
    if ps.any (fun q => phaseMatchesT q.2.type pt) then .ok ()
    else .error (.unknownPhase p.1 pt.sname)

/-- Validate one top-level entry of the structured record against the
phase registry. -/
def validateEntry (ps : List (String × PhaseRec)) :
    String × ConfigVal → Except LoadError Unit
  | (_, .components cs) => allExcept (validateComponent ps) cs
  | (_, .base_units m) =>
    allExcept (fun p =>
      match expectedBaseDims p.1 with
      | some d =>
        if UnitExpr.dims p.2 = d then .ok ()
        else .error (.unitDimensionMismatch "base_units" p.1)
      | none => .ok ()) m
  | (_, .state_bounds m) =>
    allExcept (fun p =>
      match expectedBoundDims p.1 with
      | some d =>
        if UnitExpr.dims p.2.u = d then .ok ()
        else .error (.unitDimensionMismatch "state_bounds" p.1)
      | none => .ok ()) m
  | (k, .refEntry e) =>
    if k = "pressure_ref" then
      (if entryDims e.u = UnitExpr.Pa.dims then .ok ()
       else .error (.unitDimensionMismatch k k))
    else if k = "temperature_ref" then
      (if entryDims e.u = (⟨0, 0, 0, 0, 1⟩ : Dims) then .ok ()
       else .error (.unitDimensionMismatch k k))
    else .ok ()
  | (k, .phases_in_equilibrium l) =>
    allExcept (fun pr => do
        checkPhaseName k (ps.map Prod.fst) pr.1
        checkPhaseName k (ps.map Prod.fst) pr.2) l
  | (k, .phase_equilibrium_state m) =>
    allExcept (fun q => do
        checkPhaseName k (ps.map Prod.fst) q.1.1
        checkPhaseName k (ps.map Prod.fst) q.1.2) m
  | (_, _) => .ok ()

/-- Validate the structured record: every check the spec's loader
performs, against the record's own phase registry. -/
def validate (c : List (String × ConfigVal)) : Except LoadError Unit :=
  let ps := match phasesOf c with
    | some ms => ms
    | none => []
  allExcept (validateEntry ps) c

/-- Modelled from the spec: `load(table) → structured record` — parse the
raw table, resolving every framework-object reference, then validate it
eagerly, failing with the first applicable named error and substituting
no defaults. -/
def load (r : RawConfig) :
    Except LoadError (List (String × ConfigVal)) := do
  let c ← parseConfig r
  validate c
  .ok c

/-- Apply `f` to the raw entry of the named species. -/
def editComponentRaw (r : RawConfig) (name : String)
    (f : RawComponent → RawComponent) : RawConfig :=
  r.map (fun p =>
    match p with
    | (k, .components m) =>
      (k, .components (m.map (fun q =>
        if q.1 = name then (q.1, f q.2) else q)))
    | other => other)

/-- Remove one key from a coefficient dictionary of a raw species
entry. -/
def dropCoeff (q k : String) (rc : RawComponent) : RawComponent :=
  { rc with
    parameter_data := rc.parameter_data.map (fun p =>
      if p.1 = q then
        (p.1,
         match p.2 with
         | .coeffs cs => .coeffs (cs.filter (fun c => c.1 != k))
         | v => v)
      else p) }

/-- Replace the unit of a scalar entry of a raw species entry. -/
def setScalarUnit (q : String) (u : Option UnitExpr)
    (rc : RawComponent) : RawComponent :=
  { rc with
    parameter_data := rc.parameter_data.map (fun p =>
      if p.1 = q then
        (p.1,
         match p.2 with
         | .entry e => .entry ⟨e.val, u⟩
         | v => v)
      else p) }

/-- Replace the `phases_in_equilibrium` list of a raw table. -/
def setPhasesInEquilRaw (r : RawConfig) (l : List (String × String)) :
    RawConfig :=
  r.map (fun p =>
    match p with
    | (k, .phases_in_equilibrium _) => (k, .phases_in_equilibrium l)
    | other => other)

/-- The raw table with the benzene ideal-gas heat-capacity coefficient D
removed. -/
def rawMissingCoeff : RawConfig :=
  editComponentRaw (serialize configuration) "benzene"
    (dropCoeff "cp_mol_ig_comp_coeff" "D")

/-- The raw table with benzene's ideal-gas enthalpy correlation replaced
by an unresolvable reference. -/
def rawUnknownCorr : RawConfig :=
  editComponentRaw (serialize configuration) "benzene"
    (fun rc => { rc with enth_mol_ig_comp := some "RPP5" })

/-- The raw table with an equilibrium pair naming an undeclared phase. -/
def rawUnknownPhase : RawConfig :=
  setPhasesInEquilRaw (serialize configuration) [("Vap", "Sol")]

/-- The raw table with benzene's critical pressure carrying a
temperature unit. -/
def rawUnitMismatch : RawConfig :=
  editComponentRaw (serialize configuration) "benzene"
    (setScalarUnit "pressure_crit" (some .K))

end BTHM

namespace BTHM

/-- C1: the benzene ideal-gas heat-capacity polynomial has coefficients
A = -3.392E1, B = 4.739E-1, C = -3.017E-4, D = 7.130E-8 with units
J/mol/K^n for n = 1..4, and benzene's critical pressure is 48.9e5 Pa. -/
theorem claim_C1_benzene_cp_and_pcrit :
    (componentNamed configuration "benzene").bind
        (fun c => paramOf c "cp_mol_ig_comp_coeff") =
      some (.coeffs [
        ("A", ⟨-3.392e1, some (.div (.div .J .mol) .K)⟩),
        ("B", ⟨4.739e-1, some (.div (.div .J .mol) (.pow .K 2))⟩),
        ("C", ⟨-3.017e-4, some (.div (.div .J .mol) (.pow .K 3))⟩),
        ("D", ⟨7.130e-8, some (.div (.div .J .mol) (.pow .K 4))⟩)]) ∧
    (componentNamed configuration "benzene").bind
        (fun c => paramOf c "pressure_crit") =
      some (.entry ⟨48.9e5, some .Pa⟩) :=
  ⟨rfl, rfl⟩

/-- C2: every declared correlation of every species supplies exactly the
coefficient key set its form requires; in particular the zero-valued
liquid heat-capacity coefficients 4 and 5 of benzene are supplied
explicitly. -/
theorem claim_C2_coeff_key_sets :
    allComponentsB configuration componentCoeffsOk = true ∧
    coeffKeys benzene "cp_mol_liq_comp_coeff" =
      some ["1", "2", "3", "4", "5"] ∧
    (coeffOf benzene "cp_mol_liq_comp_coeff" "4").map PEntry.val = some 0 ∧
    (coeffOf benzene "cp_mol_liq_comp_coeff" "5").map PEntry.val = some 0 := by
  decide

/-- C3: both phase names of every pair in `phases_in_equilibrium` and of
every key of `phase_equilibrium_state` are keys of the `phases`
registry. -/
theorem claim_C3_equilibrium_pairs_declared :
    phasePairsDeclaredB configuration = true := by
  decide

/-- C4: every species' `valid_phase_types` restriction is realized by a
declared phase; concretely hydrogen and methane are restricted to the
vapor phase type and the registry declares the phase `Vap` of vapor
type. -/
theorem claim_C4_valid_phase_types :
    validPhaseTypesOkB configuration = true ∧
    hydrogen.valid_phase_types = some .vaporPhase ∧
    methane.valid_phase_types = some .vaporPhase ∧
    ((phasesOf configuration).bind (fun ps => ps.lookup "Vap")).map
        PhaseRec.type = some .VaporPhase := by
  decide

/-- C5 counterexample: it is false that every species record references
correlations for all four of liquid density, liquid enthalpy, ideal-gas
enthalpy and saturation pressure — the hydrogen record lacks the liquid
density, liquid enthalpy and saturation pressure references. -/
theorem claim_C5_counterexample :
    allComponentsB configuration hasAllFourCorr = false ∧
    componentNamed configuration "hydrogen" = some hydrogen ∧
    hasAllFourCorr hydrogen = false :=
  ⟨rfl, rfl, rfl⟩

/-- C5 (amended): every species record references a named ideal-gas
enthalpy correlation; benzene and toluene additionally reference
correlations for liquid density, liquid enthalpy and saturation pressure,
while the vapor-only species hydrogen and methane carry none of those
three. -/
theorem claim_C5_correlation_references :
    allComponentsB configuration (fun cr => cr.enth_mol_ig_comp.isSome)
      = true ∧
    hasAllFourCorr benzene = true ∧
    hasAllFourCorr toluene = true ∧
    hydrogen.dens_mol_liq_comp = none ∧
    hydrogen.enth_mol_liq_comp = none ∧
    hydrogen.pressure_sat_comp = none ∧
    methane.dens_mol_liq_comp = none ∧
    methane.enth_mol_liq_comp = none ∧
    methane.pressure_sat_comp = none := by
  decide

/-- C6: the configuration dictionary has a top-level key for each of:
components, phases, base measurement units, state definition, state
bounds, reference temperature, reference pressure, and the
equilibrium-phase declarations. -/
theorem claim_C6_top_level_keys :
    (["components", "phases", "base_units", "state_definition",
      "state_bounds", "temperature_ref", "pressure_ref",
      "phases_in_equilibrium", "phase_equilibrium_state"].all
        (fun k => (configuration.map Prod.fst).contains k)) = true := by
  decide

/-- C7: the `components` dictionary contains exactly the four species
benzene, toluene, hydrogen and methane, in that order, and no others. -/
theorem claim_C7_exactly_four_species :
    (componentsOf configuration).map (List.map Prod.fst) =
      some ["benzene", "toluene", "hydrogen", "methane"] := by
  decide

/-- C8: serializing the loaded (structured) configuration record back to
the original table format and reading it again reproduces exactly the
same record — every coefficient value, unit, species, phase, bound and
reference entry — a round-trip identity on the whole table. -/
theorem claim_C8_round_trip :
    load (serialize configuration) = .ok configuration :=
  rfl

/-- C9: loading a table with a missing coefficient, an unknown
correlation reference, an unknown phase reference, or a dimensionally
inconsistent unit fails deterministically with the distinct named error
of that failure mode and yields no configuration (no default is
substituted), while the repository's well-formed table loads with no
error. -/
theorem claim_C9_loader_failure_modes :
    load rawMissingCoeff =
      .error (.missingCoefficient "benzene" "cp_mol_ig_comp_coeff" "D") ∧
    load rawUnknownCorr =
      .error (.unknownCorrelation "benzene" "RPP5") ∧
    load rawUnknownPhase =
      .error (.unknownPhase "phases_in_equilibrium" "Sol") ∧
    load rawUnitMismatch =
      .error (.unitDimensionMismatch "benzene" "pressure_crit") ∧
    load (serialize configuration) = .ok configuration :=
  ⟨rfl, rfl, rfl, rfl, rfl⟩

/-- C10: every state-bounds entry is a (lower, nominal, upper, unit)
record with lower ≤ nominal ≤ upper, the lower bounds of temperature and
pressure are strictly positive, and the entries are exactly
flow_mol_comp, temperature and pressure. -/
theorem claim_C10_state_bounds_ordered :
    stateBoundsOkB configuration = true ∧
    (stateBoundsOf configuration).map (List.map Prod.fst) =
      some ["flow_mol_comp", "temperature", "pressure"] := by
  refine ⟨?_, rfl⟩
  change ((boundOk ⟨0, 100, 1000, .div .mol .s⟩ &&
          (boundOk ⟨273.15, 300, 1000, .K⟩ &&
           (boundOk ⟨5e4, 1e5, 1e6, .Pa⟩ && true)) &&
          lowerPos ⟨273.15, 300, 1000, .K⟩) &&
         lowerPos ⟨5e4, 1e5, 1e6, .Pa⟩) = true
  norm_num [boundOk, lowerPos]

end BTHM
